import Mathlib

/-!
Verification of the mtls client core (src/mtls.py) against its
natural-language specification.

The Python module is shallowly embedded: the external capabilities
(python-gnupg, the `cryptography` primitives, `requests`) are modelled as a
structure of deterministic functions, ambient state (the sealed key file at
the key path, the HOST environment variable) as a `World` record, and each
method of `MutualTLS` as a Lean function returning its Python return value
(as an `Except`, since exceptions propagate) paired with the list of
externally visible effects it performed, in order.
-/

deriving instance DecidableEq for Except

namespace Mtls

/-- An RSA private key object, opaque to the client code. -/
structure RSAKey where
  id : Nat
deriving DecidableEq, Repr

/-- Result object returned by python-gnupg encrypt/decrypt calls. The code
only ever consumes `str(result)`, modelled by the `text` field; python-gnupg
sets `ok = False` and `str(result) = ""` when the operation fails, and never
raises. -/
structure GpgResult where
  ok : Bool
  text : String
deriving DecidableEq, Repr

/-- serialization.Encoding values used by the code. -/
inductive PyEncoding where
  | PEM
  | DER
deriving DecidableEq, Repr

/-- serialization.PrivateFormat values used by the code. -/
inductive PrivateFormat where
  | TraditionalOpenSSL
  | PKCS8
deriving DecidableEq, Repr

/-- serialization encryption algorithm argument of private_bytes. -/
inductive EncAlgorithm where
  | NoEncryption
deriving DecidableEq, Repr

/-- x509 NameOID constants used in generate_csr. -/
inductive NameOID where
  | COUNTRY_NAME
  | STATE_OR_PROVINCE_NAME
  | LOCALITY_NAME
  | ORGANIZATION_NAME
  | COMMON_NAME
deriving DecidableEq, Repr

/-- Digest algorithms from cryptography.hazmat.primitives.hashes. -/
inductive HashAlg where
  | SHA256
deriving DecidableEq, Repr

/-- A signed certificate signing request as produced by
CertificateSigningRequestBuilder.subject_name(...).sign(key, digest):
the subject attribute list in encoded order, the digest used, and the
signing key. -/
structure CSR where
  subject : List (NameOID × String)
  digest : HashAlg
  signedBy : RSAKey
deriving DecidableEq, Repr

/-- A one-level JSON value, enough to model the parsed CA response. -/
inductive JsonVal where
  | null
  | str (s : String)
  | num (n : Int)
  | boolean (b : Bool)
deriving DecidableEq, Repr

/-- A parsed JSON object, as returned by requests.Response.json(). -/
structure Json where
  fields : List (String × JsonVal)
deriving DecidableEq, Repr

/-- The JSON body handed to requests.post as the `json=payload` argument:
a dict with exactly these four keys. -/
structure Payload where
  csr : String
  lifetime : String
  host : Option String
  type : String
deriving DecidableEq, Repr

/-- Exceptions the embedded code can raise: configparser.NoOptionError
(naming the missing option), ValueError from load_pem_private_key, and
requests-level failures. -/
inductive Err where
  | noOption (opt : String)
  | valueError (msg : String)
  | requestsError (msg : String)
deriving DecidableEq, Repr

/-- Externally visible effects, in program order. -/
inductive Event where
  | readKeyFile (contents : String)
  | gpgDecryptFile (contents : String)
  | genRsaKey (publicExponent : Nat) (keySize : Nat)
  | gpgEncryptData (data : String) (recipient : String) (sign : Bool)
  | writeKeyFile (contents : String)
  | signCsr (subject : List (NameOID × String)) (digest : HashAlg)
  | httpPostJson (url : String) (payload : Payload)
  | printed (response : Json)
deriving DecidableEq, Repr

/-- The external capabilities the code calls into, as deterministic
functions (gnupg state, the RNG draw of this invocation, and the network
are fixed for one run). -/
structure Caps where
  gpgEncrypt : String → String → Bool → GpgResult
  gpgDecrypt : String → GpgResult
  load_pem_private_key : String → Except String RSAKey
  generate_private_key : Nat → Nat → RSAKey
  private_bytes : RSAKey → PyEncoding → PrivateFormat → EncAlgorithm → String
  csr_public_bytes : CSR → PyEncoding → String
  httpPostJson : String → Payload → Except String Json

/-- Ambient state: the sealed key file at the per-user key path (`none`
when no file exists) and the HOST environment variable. -/
structure World where
  keyFile : Option String
  hostEnv : Option String
deriving DecidableEq, Repr

/-- The `[server]` section of config.ini, as option/value pairs. -/
def Config := List (String × String)

/-- ConfigParser.get on the selected server section: raises NoOptionError
naming the option when it is absent. -/
def configGet (cfg : Config) (opt : String) : Except Err String :=
  match List.lookup opt cfg with
  | some v => Except.ok v
  | none => Except.error (Err.noOption opt)

/-- MutualTLS.encrypt: seals data to a recipient via gpg, optionally
signing (sign defaults to False in the source). -/
def encrypt (caps : Caps) (data recipient : String) (sign : Bool) :
    GpgResult × List Event :=
  (caps.gpgEncrypt data recipient sign, [Event.gpgEncryptData data recipient sign])

/-- MutualTLS.get_key_or_generate: if the sealed key file exists, read it,
gpg-decrypt it and parse the decrypted text as a PEM private key; otherwise
generate a fresh RSA key (e=65537, 4096 bits), PEM-encode it, seal it to the
fingerprint configured for the user, and write the sealed text to the key
file. Returns the cleartext key object. -/
def get_key_or_generate (caps : Caps) (cfg : Config) (w : World) :
    Except Err RSAKey × List Event :=
  match w.keyFile with
  | some contents =>
    let key_data := caps.gpgDecrypt contents
    let byte_key_data := key_data.text
    match caps.load_pem_private_key byte_key_data with
    | Except.ok key =>
        (Except.ok key, [Event.readKeyFile contents, Event.gpgDecryptFile contents])
    | Except.error msg =>
        (Except.error (Err.valueError msg),
         [Event.readKeyFile contents, Event.gpgDecryptFile contents])
  | none =>
    let key := caps.generate_private_key 65537 4096
    let key_data := caps.private_bytes key PyEncoding.PEM
        PrivateFormat.TraditionalOpenSSL EncAlgorithm.NoEncryption
    match configGet cfg "fingerprint" with
    | Except.error e => (Except.error e, [Event.genRsaKey 65537 4096])
    | Except.ok user_fingerprint =>
      let encRes := encrypt caps key_data user_fingerprint false
      match configGet cfg "email" with
      | Except.error e => (Except.error e, Event.genRsaKey 65537 4096 :: encRes.2)
      | Except.ok _user_email =>
        (Except.ok key,
         Event.genRsaKey 65537 4096 :: encRes.2 ++ [Event.writeKeyFile encRes.1.text])

/-- MutualTLS.generate_csr: reads the five subject attributes from the
config in fixed order, assembles the subject name, and signs the request
with the key using SHA256. -/
def generate_csr (cfg : Config) (key : RSAKey) : Except Err CSR × List Event :=
  match configGet cfg "country" with
  | Except.error e => (Except.error e, [])
  | Except.ok country =>
    match configGet cfg "state" with
    | Except.error e => (Except.error e, [])
    | Except.ok state =>
      match configGet cfg "locality" with
      | Except.error e => (Except.error e, [])
      | Except.ok locality =>
        match configGet cfg "organization_name" with
        | Except.error e => (Except.error e, [])
        | Except.ok organization_name =>
          match configGet cfg "common_name" with
          | Except.error e => (Except.error e, [])
          | Except.ok common_name =>
            let subject : List (NameOID × String) :=
              [(NameOID.COUNTRY_NAME, country),
               (NameOID.STATE_OR_PROVINCE_NAME, state),
               (NameOID.LOCALITY_NAME, locality),
               (NameOID.ORGANIZATION_NAME, organization_name),
               (NameOID.COMMON_NAME, common_name)]
            (Except.ok ⟨subject, HashAlg.SHA256, key⟩,
             [Event.signCsr subject HashAlg.SHA256])

/-- MutualTLS.encrypt_and_send_to_server: seals the PEM encoding of the CSR
to the server fingerprint with signing, builds the four-key payload, posts
it to the configured url, parses the response as JSON and prints it. The
Python function has no return statement, so it returns None. -/
def encrypt_and_send_to_server (caps : Caps) (cfg : Config) (w : World)
    (csr : CSR) : Except Err (Option Json) × List Event :=
  match configGet cfg "server_fingerprint" with
  | Except.error e => (Except.error e, [])
  | Except.ok server_fingerprint =>
    let encRes := encrypt caps (caps.csr_public_bytes csr PyEncoding.PEM)
        server_fingerprint true
    let payload : Payload :=
      { csr := encRes.1.text
        lifetime := "18"
        host := w.hostEnv
        type := "CREATE_CERTIFICATE" }
    match configGet cfg "url" with
    | Except.error e => (Except.error e, encRes.2)
    | Except.ok server_url =>
      match caps.httpPostJson server_url payload with
      | Except.error msg =>
          (Except.error (Err.requestsError msg),
           encRes.2 ++ [Event.httpPostJson server_url payload])
      | Except.ok response =>
          (Except.ok none,
           encRes.2 ++ [Event.httpPostJson server_url payload,
                        Event.printed response])

/-- MutualTLS.run: the sequential pipeline key → csr → submission. -/
def run (caps : Caps) (cfg : Config) (w : World) : Except Err Unit × List Event :=
  match get_key_or_generate caps cfg w with
  | (Except.error e, t1) => (Except.error e, t1)
  | (Except.ok key, t1) =>
    match generate_csr cfg key with
    | (Except.error e, t2) => (Except.error e, t1 ++ t2)
    | (Except.ok csr, t2) =>
      match encrypt_and_send_to_server caps cfg w csr with
      | (Except.error e, t3) => (Except.error e, t1 ++ t2 ++ t3)
      | (Except.ok _, t3) => (Except.ok (), t1 ++ t2 ++ t3)

/-- Effect of one event on the ambient state: a key-file write replaces the
file contents; nothing else touches the world. -/
def applyEvent (w : World) : Event → World
  | Event.writeKeyFile c => { w with keyFile := some c }
  | _ => w

/-- Ambient state after a trace of events. -/
def applyEvents (w : World) (t : List Event) : World :=
  t.foldl applyEvent w

/-- True exactly on gpg sealing events. -/
def isEncEvent : Event → Bool
  | Event.gpgEncryptData _ _ _ => true
  | _ => false

/-- The PEM encoding (TraditionalOpenSSL, unencrypted) of the key that the
generate path of get_key_or_generate creates. -/
def genKeyPem (caps : Caps) : String :=
  caps.private_bytes (caps.generate_private_key 65537 4096) PyEncoding.PEM
    PrivateFormat.TraditionalOpenSSL EncAlgorithm.NoEncryption

/-- Concrete well-behaved capabilities for witnesses: gpg decryption
succeeds on the sealed blob "SEALED" and fails (empty text) on anything
else; PEM parsing accepts exactly "PEMKEY". -/
def capsA : Caps where
  gpgEncrypt := fun d r s =>
    ⟨true, "ENC:" ++ r ++ ":" ++ (if s then "signed:" else "") ++ d⟩
  gpgDecrypt := fun c => if c = "SEALED" then ⟨true, "PEMKEY"⟩ else ⟨false, ""⟩
  load_pem_private_key := fun s =>
    if s = "PEMKEY" then Except.ok ⟨7⟩
    else Except.error "Could not deserialize key data."
  generate_private_key := fun pe ks => ⟨pe + ks⟩
  private_bytes := fun k _ _ _ => "PEM:" ++ toString k.id
  csr_public_bytes := fun _ _ => "CSRPEM"
  httpPostJson := fun _ _ => Except.ok ⟨[("cert", JsonVal.str "ISSUED")]⟩

/-- Capabilities whose sealing capability fails: python-gnupg encrypt with
an unresolvable recipient returns a result with ok = False and empty str. -/
def capsFailEnc : Caps :=
  { capsA with gpgEncrypt := fun _ _ _ => ⟨false, ""⟩ }

/-- A complete server section, as in config.ini.example. -/
def cfgA : Config :=
  [("email", "foo@example.com"),
   ("url", "https://ca.example.com/issue"),
   ("fingerprint", "AAAA"),
   ("server_fingerprint", "BBBB"),
   ("country", "US"),
   ("state", "CA"),
   ("locality", "SF"),
   ("organization_name", "Acme"),
   ("common_name", "alice@acme.com")]

/-- A server section missing the locality subject attribute. -/
def cfgNoLocality : Config :=
  [("email", "foo@example.com"),
   ("url", "https://ca.example.com/issue"),
   ("fingerprint", "AAAA"),
   ("server_fingerprint", "BBBB"),
   ("country", "US"),
   ("state", "CA"),
   ("organization_name", "Acme"),
   ("common_name", "alice@acme.com")]

/-- World with no sealed key file and no HOST variable. -/
def wGen : World := ⟨none, none⟩

/-- World whose key file decrypts correctly under capsA. -/
def wRead : World := ⟨some "SEALED", some "host1"⟩

/-- World whose key file fails gpg decryption under capsA. -/
def wBad : World := ⟨some "GARBLED", none⟩

/-- A concrete signed CSR value. -/
def csrA : CSR :=
  ⟨[(NameOID.COUNTRY_NAME, "US"),
    (NameOID.STATE_OR_PROVINCE_NAME, "CA"),
    (NameOID.LOCALITY_NAME, "SF"),
    (NameOID.ORGANIZATION_NAME, "Acme"),
    (NameOID.COMMON_NAME, "alice@acme.com")], HashAlg.SHA256, ⟨7⟩⟩

/-- The parsed JSON response capsA always returns. -/
def jA : Json := ⟨[("cert", JsonVal.str "ISSUED")]⟩

/-- C4: with all five subject attributes present, generate_csr builds the
subject from country, state, locality, organization_name, common_name in
exactly that order, each bound to the configured value, and signs the
request with the given private key using SHA256. -/
theorem csr_subject_fixed_order (cfg : Config) (key : RSAKey)
    (c s l o cn : String)
    (hc : configGet cfg "country" = Except.ok c)
    (hs : configGet cfg "state" = Except.ok s)
    (hl : configGet cfg "locality" = Except.ok l)
    (ho : configGet cfg "organization_name" = Except.ok o)
    (hcn : configGet cfg "common_name" = Except.ok cn) :
    generate_csr cfg key =
      (Except.ok ⟨[(NameOID.COUNTRY_NAME, c),
                   (NameOID.STATE_OR_PROVINCE_NAME, s),
                   (NameOID.LOCALITY_NAME, l),
                   (NameOID.ORGANIZATION_NAME, o),
                   (NameOID.COMMON_NAME, cn)], HashAlg.SHA256, key⟩,
       [Event.signCsr
          [(NameOID.COUNTRY_NAME, c),
           (NameOID.STATE_OR_PROVINCE_NAME, s),
           (NameOID.LOCALITY_NAME, l),
           (NameOID.ORGANIZATION_NAME, o),
           (NameOID.COMMON_NAME, cn)] HashAlg.SHA256]) := by
  simp [generate_csr, hc, hs, hl, ho, hcn]

/-- Witness for csr_subject_fixed_order at the example identity record. -/
theorem csr_subject_fixed_order_witness :
    generate_csr cfgA ⟨7⟩ =
      (Except.ok csrA,
       [Event.signCsr csrA.subject HashAlg.SHA256]) := by
  have h := csr_subject_fixed_order cfgA ⟨7⟩ "US" "CA" "SF" "Acme" "alice@acme.com"
    (by decide) (by decide) (by decide) (by decide) (by decide)
  simpa [csrA] using h

/-- C5: with at least one of the five subject attributes absent from the
config section, generate_csr raises NoOptionError naming an absent field,
performs no signing, and produces no CSR. -/
theorem csr_missing_attribute_fails_before_sign (cfg : Config) (key : RSAKey)
    (habs : ∃ f ∈ ["country", "state", "locality", "organization_name",
                   "common_name"], List.lookup f cfg = none) :
    ∃ f, List.lookup f cfg = none ∧
      generate_csr cfg key = (Except.error (Err.noOption f), []) := by
  cases h1 : List.lookup "country" cfg with
  | none => exact ⟨"country", h1, by simp [generate_csr, configGet, h1]⟩
  | some c =>
    cases h2 : List.lookup "state" cfg with
    | none => exact ⟨"state", h2, by simp [generate_csr, configGet, h1, h2]⟩
    | some s =>
      cases h3 : List.lookup "locality" cfg with
      | none => exact ⟨"locality", h3, by simp [generate_csr, configGet, h1, h2, h3]⟩
      | some l =>
        cases h4 : List.lookup "organization_name" cfg with
        | none =>
          exact ⟨"organization_name", h4,
            by simp [generate_csr, configGet, h1, h2, h3, h4]⟩
        | some o =>
          cases h5 : List.lookup "common_name" cfg with
          | none =>
            exact ⟨"common_name", h5,
              by simp [generate_csr, configGet, h1, h2, h3, h4, h5]⟩
          | some cn =>
            rcases habs with ⟨f, hf, hnone⟩
            simp only [List.mem_cons, List.not_mem_nil, or_false] at hf
            rcases hf with rfl | rfl | rfl | rfl | rfl <;> simp_all

/-- Witness for csr_missing_attribute_fails_before_sign: locality absent. -/
theorem csr_missing_attribute_witness :
    ∃ f, List.lookup f cfgNoLocality = none ∧
      generate_csr cfgNoLocality ⟨7⟩ = (Except.error (Err.noOption f), []) :=
  csr_missing_attribute_fails_before_sign cfgNoLocality ⟨7⟩
    ⟨"locality", by decide, by decide⟩

/-- C7: with no sealed key file present, get_key_or_generate generates a
fresh RSA key with public exponent 65537 and a 4096-bit modulus, encodes it
with the PEM encoding (TraditionalOpenSSL format, no encryption) before
sealing it to the configured user fingerprint, writes the sealed text, and
returns the generated key. -/
theorem generate_path_rsa_policy (caps : Caps) (cfg : Config) (w : World)
    (fp em : String)
    (hfile : w.keyFile = none)
    (hfp : configGet cfg "fingerprint" = Except.ok fp)
    (hem : configGet cfg "email" = Except.ok em) :
    get_key_or_generate caps cfg w =
      (Except.ok (caps.generate_private_key 65537 4096),
       [Event.genRsaKey 65537 4096,
        Event.gpgEncryptData
          (caps.private_bytes (caps.generate_private_key 65537 4096)
            PyEncoding.PEM PrivateFormat.TraditionalOpenSSL EncAlgorithm.NoEncryption)
          fp false,
        Event.writeKeyFile
          (caps.gpgEncrypt
            (caps.private_bytes (caps.generate_private_key 65537 4096)
              PyEncoding.PEM PrivateFormat.TraditionalOpenSSL EncAlgorithm.NoEncryption)
            fp false).text]) := by
  simp [get_key_or_generate, encrypt, hfile, hfp, hem]

/-- Witness for generate_path_rsa_policy at the example identity record. -/
theorem generate_path_rsa_policy_witness :
    get_key_or_generate capsA cfgA wGen =
      (Except.ok ⟨65537 + 4096⟩,
       [Event.genRsaKey 65537 4096,
        Event.gpgEncryptData ("PEM:" ++ toString (65537 + 4096)) "AAAA" false,
        Event.writeKeyFile ("ENC:AAAA:" ++ ("PEM:" ++ toString (65537 + 4096)))]) := by
  have h := generate_path_rsa_policy capsA cfgA wGen "AAAA" "foo@example.com"
    rfl (by decide) (by decide)
  simpa [capsA] using h

/-- C9: when the sealed key file already exists, get_key_or_generate
performs no write, leaves the ambient state unchanged, and a second call on
the resulting state returns bit-identical results, the decrypted key
material included. -/
theorem key_resolution_idempotent (caps : Caps) (cfg : Config) (w : World)
    (contents : String)
    (hfile : w.keyFile = some contents) :
    (∀ c, Event.writeKeyFile c ∉ (get_key_or_generate caps cfg w).2) ∧
    applyEvents w (get_key_or_generate caps cfg w).2 = w ∧
    get_key_or_generate caps cfg (applyEvents w (get_key_or_generate caps cfg w).2)
      = get_key_or_generate caps cfg w := by
  cases hpem : caps.load_pem_private_key (caps.gpgDecrypt contents).text with
  | ok key =>
    simp [get_key_or_generate, hfile, hpem, applyEvents, applyEvent]
  | error msg =>
    simp [get_key_or_generate, hfile, hpem, applyEvents, applyEvent]

/-- Witness for key_resolution_idempotent at a world with a decryptable
sealed key file. -/
theorem key_resolution_idempotent_witness :
    (∀ c, Event.writeKeyFile c ∉ (get_key_or_generate capsA cfgA wRead).2) ∧
    applyEvents wRead (get_key_or_generate capsA cfgA wRead).2 = wRead ∧
    get_key_or_generate capsA cfgA
        (applyEvents wRead (get_key_or_generate capsA cfgA wRead).2)
      = get_key_or_generate capsA cfgA wRead :=
  key_resolution_idempotent capsA cfgA wRead "SEALED" rfl

/-- C10: on the generate path the result of sealing the new key is never
checked: whatever text the encryption capability returns is written to the
key file, and the cleartext key object is returned to the caller
regardless. -/
theorem generate_path_unchecked_seal_write (caps : Caps) (cfg : Config)
    (w : World) (fp em : String)
    (hfile : w.keyFile = none)
    (hfp : configGet cfg "fingerprint" = Except.ok fp)
    (hem : configGet cfg "email" = Except.ok em) :
    (get_key_or_generate caps cfg w).1
        = Except.ok (caps.generate_private_key 65537 4096) ∧
    Event.writeKeyFile
        (caps.gpgEncrypt
          (caps.private_bytes (caps.generate_private_key 65537 4096)
            PyEncoding.PEM PrivateFormat.TraditionalOpenSSL EncAlgorithm.NoEncryption)
          fp false).text
      ∈ (get_key_or_generate caps cfg w).2 := by
  simp [get_key_or_generate, encrypt, hfile, hfp, hem]

/-- Witness for generate_path_unchecked_seal_write with a failing sealing
capability: the empty failure text is written to the key file and the
cleartext key is still returned. -/
theorem generate_path_unchecked_seal_write_witness :
    (get_key_or_generate capsFailEnc cfgA wGen).1
        = Except.ok (capsFailEnc.generate_private_key 65537 4096) ∧
    Event.writeKeyFile "" ∈ (get_key_or_generate capsFailEnc cfgA wGen).2 := by
  have h := generate_path_unchecked_seal_write capsFailEnc cfgA wGen
    "AAAA" "foo@example.com" rfl (by decide) (by decide)
  simpa [capsFailEnc, capsA] using h

/-- C1: whenever encrypt_and_send_to_server posts to the CA, the request
goes to the configured url and its JSON body is exactly the four-key
object binding csr to the sealed-and-signed CSR text, lifetime to the
string "18", host to the optional HOST hint (none when unset), and type to
CREATE_CERTIFICATE; moreover that post is always performed. -/
theorem payload_wire_contract (caps : Caps) (cfg : Config) (w : World)
    (csr : CSR) (sfp url : String)
    (hsfp : configGet cfg "server_fingerprint" = Except.ok sfp)
    (hurl : configGet cfg "url" = Except.ok url) :
    Event.httpPostJson url
        { csr := (caps.gpgEncrypt (caps.csr_public_bytes csr PyEncoding.PEM)
            sfp true).text,
          lifetime := "18", host := w.hostEnv, type := "CREATE_CERTIFICATE" }
      ∈ (encrypt_and_send_to_server caps cfg w csr).2 ∧
    ∀ u p, Event.httpPostJson u p ∈ (encrypt_and_send_to_server caps cfg w csr).2 →
      u = url ∧
      p = { csr := (caps.gpgEncrypt (caps.csr_public_bytes csr PyEncoding.PEM)
              sfp true).text,
            lifetime := "18", host := w.hostEnv,
            type := "CREATE_CERTIFICATE" } := by
  cases hpost : caps.httpPostJson url
      { csr := (caps.gpgEncrypt (caps.csr_public_bytes csr PyEncoding.PEM)
          sfp true).text,
        lifetime := "18", host := w.hostEnv, type := "CREATE_CERTIFICATE" } with
  | ok response =>
    constructor
    · simp [encrypt_and_send_to_server, encrypt, hsfp, hurl, hpost]
    · intro u p hm
      simp only [encrypt_and_send_to_server, encrypt, hsfp, hurl, hpost,
        List.mem_append, List.mem_cons, List.not_mem_nil, or_false] at hm
      rcases hm with hm | hm | hm <;> simp_all
  | error msg =>
    constructor
    · simp [encrypt_and_send_to_server, encrypt, hsfp, hurl, hpost]
    · intro u p hm
      simp only [encrypt_and_send_to_server, encrypt, hsfp, hurl, hpost,
        List.mem_append, List.mem_cons, List.not_mem_nil, or_false] at hm
      rcases hm with hm | hm <;> simp_all

/-- Witness for payload_wire_contract at the example identity record. -/
theorem payload_wire_contract_witness :
    Event.httpPostJson "https://ca.example.com/issue"
        { csr := (capsA.gpgEncrypt (capsA.csr_public_bytes csrA PyEncoding.PEM)
            "BBBB" true).text,
          lifetime := "18", host := wRead.hostEnv,
          type := "CREATE_CERTIFICATE" }
      ∈ (encrypt_and_send_to_server capsA cfgA wRead csrA).2 :=
  (payload_wire_contract capsA cfgA wRead csrA "BBBB"
    "https://ca.example.com/issue" (by decide) (by decide)).1

/-- C2 counterexample: under concrete capabilities the server response is
parsed as the JSON object jA and printed, yet the function returns None to
its caller, not the parsed response. -/
theorem submit_returns_none_counterexample :
    Event.printed jA ∈ (encrypt_and_send_to_server capsA cfgA wRead csrA).2 ∧
    (encrypt_and_send_to_server capsA cfgA wRead csrA).1 = Except.ok none ∧
    (encrypt_and_send_to_server capsA cfgA wRead csrA).1
      ≠ Except.ok (some jA) := by
  exact ⟨by decide, by decide, by decide⟩

/-- C2 (amended): on every successful exchange encrypt_and_send_to_server
parses the response as JSON and prints it, but returns None to its caller,
discarding the parsed response. -/
theorem submit_prints_and_returns_none (caps : Caps) (cfg : Config)
    (w : World) (csr : CSR) (sfp url : String) (response : Json)
    (hsfp : configGet cfg "server_fingerprint" = Except.ok sfp)
    (hurl : configGet cfg "url" = Except.ok url)
    (hpost : caps.httpPostJson url
        { csr := (caps.gpgEncrypt (caps.csr_public_bytes csr PyEncoding.PEM)
            sfp true).text,
          lifetime := "18", host := w.hostEnv, type := "CREATE_CERTIFICATE" }
      = Except.ok response) :
    (encrypt_and_send_to_server caps cfg w csr).1 = Except.ok none ∧
    Event.printed response ∈ (encrypt_and_send_to_server caps cfg w csr).2 := by
  simp [encrypt_and_send_to_server, encrypt, hsfp, hurl, hpost]

/-- Witness for submit_prints_and_returns_none at concrete capabilities. -/
theorem submit_prints_and_returns_none_witness :
    (encrypt_and_send_to_server capsA cfgA wRead csrA).1 = Except.ok none ∧
    Event.printed jA ∈ (encrypt_and_send_to_server capsA cfgA wRead csrA).2 :=
  submit_prints_and_returns_none capsA cfgA wRead csrA "BBBB"
    "https://ca.example.com/issue" jA (by decide) (by decide) (by decide)

/-- C6 counterexample: with a key file whose gpg decryption fails (ok is
False, empty text), get_key_or_generate raises exactly the ValueError that
load_pem_private_key raises on bytes that are not a valid key — the same
error as the parse case, not a distinct key-decryption error. -/
theorem decrypt_failure_counterexample :
    (capsA.gpgDecrypt "GARBLED").ok = false ∧
    (get_key_or_generate capsA cfgA wBad).1
      = Except.error (Err.valueError "Could not deserialize key data.") ∧
    capsA.load_pem_private_key "not a valid key"
      = Except.error "Could not deserialize key data." := by
  exact ⟨by decide, by decide, by decide⟩

/-- C6 (amended): when the key file exists but gpg decryption fails, the
decryption result is not checked; its empty text is passed to
load_pem_private_key, so resolution fails with that parse ValueError
rather than a distinct decryption error, and no write occurs. -/
theorem decrypt_failure_yields_parse_error_no_write (caps : Caps)
    (cfg : Config) (w : World) (contents msg : String)
    (hfile : w.keyFile = some contents)
    (hfail : (caps.gpgDecrypt contents).ok = false)
    (htext : (caps.gpgDecrypt contents).text = "")
    (hpem : caps.load_pem_private_key "" = Except.error msg) :
    (get_key_or_generate caps cfg w).1 = Except.error (Err.valueError msg) ∧
    ∀ c, Event.writeKeyFile c ∉ (get_key_or_generate caps cfg w).2 := by
  simp [get_key_or_generate, hfile, htext, hpem]

/-- Witness for decrypt_failure_yields_parse_error_no_write at concrete
capabilities. -/
theorem decrypt_failure_witness :
    (get_key_or_generate capsA cfgA wBad).1
      = Except.error (Err.valueError "Could not deserialize key data.") ∧
    ∀ c, Event.writeKeyFile c ∉ (get_key_or_generate capsA cfgA wBad).2 :=
  decrypt_failure_yields_parse_error_no_write capsA cfgA wBad "GARBLED"
    "Could not deserialize key data." rfl (by decide) (by decide) (by decide)

/-- Every event of a get_key_or_generate trace is a read or decrypt of the
existing file contents, or else the file was absent and the event is the
key generation, the seal of the generated PEM to the configured
fingerprint, or the write of that sealed text. -/
theorem gkg_event_mem (caps : Caps) (cfg : Config) (w : World) (e : Event)
    (h : e ∈ (get_key_or_generate caps cfg w).2) :
    (∃ contents, w.keyFile = some contents ∧
       (e = Event.readKeyFile contents ∨ e = Event.gpgDecryptFile contents)) ∨
    (w.keyFile = none ∧
       (e = Event.genRsaKey 65537 4096 ∨
        ∃ fp, configGet cfg "fingerprint" = Except.ok fp ∧
          (e = Event.gpgEncryptData (genKeyPem caps) fp false ∨
           e = Event.writeKeyFile
                 (caps.gpgEncrypt (genKeyPem caps) fp false).text))) := by
  cases hw : w.keyFile with
  | some contents =>
    left
    refine ⟨contents, rfl, ?_⟩
    cases hpem : caps.load_pem_private_key (caps.gpgDecrypt contents).text with
    | ok key =>
      simp [get_key_or_generate, hw, hpem] at h
      exact h
    | error msg =>
      simp [get_key_or_generate, hw, hpem] at h
      exact h
  | none =>
    right
    refine ⟨rfl, ?_⟩
    cases hfp : configGet cfg "fingerprint" with
    | error err =>
      simp [get_key_or_generate, hw, hfp] at h
      exact Or.inl h
    | ok fp =>
      cases hem : configGet cfg "email" with
      | error err =>
        simp [get_key_or_generate, encrypt, hw, hfp, hem] at h
        rcases h with h | h
        · exact Or.inl h
        · exact Or.inr ⟨fp, rfl, Or.inl (by simp [h, genKeyPem])⟩
      | ok em =>
        simp [get_key_or_generate, encrypt, hw, hfp, hem] at h
        rcases h with h | h | h
        · exact Or.inl h
        · exact Or.inr ⟨fp, rfl, Or.inl (by simp [h, genKeyPem])⟩
        · exact Or.inr ⟨fp, rfl, Or.inr (by simp [h, genKeyPem])⟩

/-- Every event of a generate_csr trace is a signing event with the SHA256
digest. -/
theorem csr_event_mem (cfg : Config) (key : RSAKey) (e : Event)
    (h : e ∈ (generate_csr cfg key).2) :
    ∃ subj, e = Event.signCsr subj HashAlg.SHA256 := by
  unfold generate_csr at h
  repeat' split at h
  all_goals simp at h
  exact ⟨_, h⟩

/-- Every event of an encrypt_and_send_to_server trace is the signed seal
of the CSR PEM to the configured server fingerprint, a post, or a print. -/
theorem send_event_mem (caps : Caps) (cfg : Config) (w : World) (csr : CSR)
    (e : Event) (h : e ∈ (encrypt_and_send_to_server caps cfg w csr).2) :
    ∃ sfp, configGet cfg "server_fingerprint" = Except.ok sfp ∧
      (e = Event.gpgEncryptData (caps.csr_public_bytes csr PyEncoding.PEM)
            sfp true ∨
       (∃ u p, e = Event.httpPostJson u p) ∨ (∃ j, e = Event.printed j)) := by
  cases hsfp : configGet cfg "server_fingerprint" with
  | error err =>
    simp [encrypt_and_send_to_server, hsfp] at h
  | ok sfp =>
    refine ⟨sfp, rfl, ?_⟩
    cases hurl : configGet cfg "url" with
    | error err =>
      simp [encrypt_and_send_to_server, encrypt, hsfp, hurl] at h
      exact Or.inl h
    | ok url =>
      cases hpost : caps.httpPostJson url
          { csr := (caps.gpgEncrypt (caps.csr_public_bytes csr PyEncoding.PEM)
              sfp true).text,
            lifetime := "18", host := w.hostEnv,
            type := "CREATE_CERTIFICATE" } with
      | error msg =>
        simp [encrypt_and_send_to_server, encrypt, hsfp, hurl, hpost] at h
        rcases h with h | h
        · exact Or.inl h
        · exact Or.inr (Or.inl ⟨_, _, h⟩)
      | ok response =>
        simp [encrypt_and_send_to_server, encrypt, hsfp, hurl, hpost] at h
        rcases h with h | h | h
        · exact Or.inl h
        · exact Or.inr (Or.inl ⟨_, _, h⟩)
        · exact Or.inr (Or.inr ⟨_, h⟩)

/-- A get_key_or_generate trace holds at most one sealing event. -/
theorem gkg_enc_count (caps : Caps) (cfg : Config) (w : World) :
    ((get_key_or_generate caps cfg w).2.filter isEncEvent).length ≤ 1 := by
  cases hw : w.keyFile with
  | some contents =>
    cases hpem : caps.load_pem_private_key (caps.gpgDecrypt contents).text with
    | ok key => simp [get_key_or_generate, hw, hpem, isEncEvent]
    | error msg => simp [get_key_or_generate, hw, hpem, isEncEvent]
  | none =>
    cases hfp : configGet cfg "fingerprint" with
    | error err => simp [get_key_or_generate, hw, hfp, isEncEvent]
    | ok fp =>
      cases hem : configGet cfg "email" with
      | error err =>
        simp [get_key_or_generate, encrypt, hw, hfp, hem, isEncEvent]
      | ok em =>
        simp [get_key_or_generate, encrypt, hw, hfp, hem, isEncEvent]

/-- A generate_csr trace holds no sealing event. -/
theorem csr_enc_count (cfg : Config) (key : RSAKey) :
    ((generate_csr cfg key).2.filter isEncEvent).length = 0 := by
  unfold generate_csr
  repeat' split
  all_goals simp [isEncEvent]

/-- An encrypt_and_send_to_server trace holds at most one sealing event. -/
theorem send_enc_count (caps : Caps) (cfg : Config) (w : World) (csr : CSR) :
    ((encrypt_and_send_to_server caps cfg w csr).2.filter isEncEvent).length
      ≤ 1 := by
  cases hsfp : configGet cfg "server_fingerprint" with
  | error err => simp [encrypt_and_send_to_server, hsfp, isEncEvent]
  | ok sfp =>
    cases hurl : configGet cfg "url" with
    | error err =>
      simp [encrypt_and_send_to_server, encrypt, hsfp, hurl, isEncEvent]
    | ok url =>
      cases hpost : caps.httpPostJson url
          { csr := (caps.gpgEncrypt (caps.csr_public_bytes csr PyEncoding.PEM)
              sfp true).text,
            lifetime := "18", host := w.hostEnv,
            type := "CREATE_CERTIFICATE" } with
      | error msg =>
        simp [encrypt_and_send_to_server, encrypt, hsfp, hurl, hpost, isEncEvent]
      | ok response =>
        simp [encrypt_and_send_to_server, encrypt, hsfp, hurl, hpost, isEncEvent]

/-- The run trace is the key-resolution trace, possibly extended by the
CSR-build trace and then the submission trace of the produced values. -/
theorem run_trace_cases (caps : Caps) (cfg : Config) (w : World) :
    (run caps cfg w).2 = (get_key_or_generate caps cfg w).2 ∨
    (∃ key, (get_key_or_generate caps cfg w).1 = Except.ok key ∧
      (run caps cfg w).2
        = (get_key_or_generate caps cfg w).2 ++ (generate_csr cfg key).2) ∨
    (∃ key csr, (get_key_or_generate caps cfg w).1 = Except.ok key ∧
      (generate_csr cfg key).1 = Except.ok csr ∧
      (run caps cfg w).2
        = (get_key_or_generate caps cfg w).2 ++ (generate_csr cfg key).2
            ++ (encrypt_and_send_to_server caps cfg w csr).2) := by
  rcases h1 : get_key_or_generate caps cfg w with ⟨e1 | key, t1⟩
  · left
    simp [run, h1]
  · rcases h2 : generate_csr cfg key with ⟨e2 | csr, t2⟩
    · right; left
      exact ⟨key, by simp [h1], by simp [run, h1, h2]⟩
    · rcases h3 : encrypt_and_send_to_server caps cfg w csr with ⟨e3 | v, t3⟩
      · right; right
        exact ⟨key, csr, by simp [h1], by simp [h2], by simp [run, h1, h2, h3]⟩
      · right; right
        exact ⟨key, csr, by simp [h1], by simp [h2], by simp [run, h1, h2, h3]⟩

/-- A sealing event in a get_key_or_generate trace is unsigned, happens
only when the file was absent, and seals the generated PEM to the
configured user fingerprint. -/
theorem gkg_enc_char (caps : Caps) (cfg : Config) (w : World)
    (d r : String) (s : Bool)
    (hm : Event.gpgEncryptData d r s ∈ (get_key_or_generate caps cfg w).2) :
    s = false ∧ w.keyFile = none ∧
      configGet cfg "fingerprint" = Except.ok r ∧ d = genKeyPem caps := by
  rcases gkg_event_mem caps cfg w _ hm with
    ⟨contents, hw, he | he⟩ | ⟨hw, he | ⟨fp, hfp, he | he⟩⟩
  · exact absurd he (by simp)
  · exact absurd he (by simp)
  · exact absurd he (by simp)
  · injection he with hd hr hs
    subst hd; subst hr; subst hs
    exact ⟨rfl, hw, hfp, rfl⟩
  · exact absurd he (by simp)

/-- A key-file write in a get_key_or_generate trace happens only when the
file was absent, and writes the text of the seal of the generated PEM to
the configured user fingerprint. -/
theorem gkg_write_char (caps : Caps) (cfg : Config) (w : World) (c : String)
    (hm : Event.writeKeyFile c ∈ (get_key_or_generate caps cfg w).2) :
    w.keyFile = none ∧
      ∃ fp, configGet cfg "fingerprint" = Except.ok fp ∧
        c = (caps.gpgEncrypt (genKeyPem caps) fp false).text := by
  rcases gkg_event_mem caps cfg w _ hm with
    ⟨contents, hw, he | he⟩ | ⟨hw, he | ⟨fp, hfp, he | he⟩⟩
  · exact absurd he (by simp)
  · exact absurd he (by simp)
  · exact absurd he (by simp)
  · exact absurd he (by simp)
  · injection he with hc
    subst hc
    exact ⟨hw, fp, hfp, rfl⟩

/-- A sealing event in an encrypt_and_send_to_server trace is signed and
seals the CSR PEM to the configured server fingerprint. -/
theorem send_enc_char (caps : Caps) (cfg : Config) (w : World) (csr : CSR)
    (d r : String) (s : Bool)
    (hm : Event.gpgEncryptData d r s
      ∈ (encrypt_and_send_to_server caps cfg w csr).2) :
    s = true ∧ configGet cfg "server_fingerprint" = Except.ok r ∧
      d = caps.csr_public_bytes csr PyEncoding.PEM := by
  rcases send_event_mem caps cfg w csr _ hm with ⟨sfp, hsfp, he | he | he⟩
  · injection he with hd hr hs
    subst hd; subst hr; subst hs
    exact ⟨rfl, hsfp, rfl⟩
  · rcases he with ⟨u, p, he⟩
    exact absurd he (by simp)
  · rcases he with ⟨j, he⟩
    exact absurd he (by simp)

/-- C3: with the user fingerprint and email configured, each call to
get_key_or_generate performs exactly one of the two effect sets: the file
exists and is read and decrypted with no write, no generation and no seal,
or the file is absent and a key is generated, sealed and written with no
read and no decrypt — never both. -/
theorem key_resolution_exclusive_effects (caps : Caps) (cfg : Config)
    (w : World) (fp em : String)
    (hfp : configGet cfg "fingerprint" = Except.ok fp)
    (hem : configGet cfg "email" = Except.ok em) :
    ((∃ c, Event.readKeyFile c ∈ (get_key_or_generate caps cfg w).2) ∧
     (∃ c, Event.gpgDecryptFile c ∈ (get_key_or_generate caps cfg w).2) ∧
     (∀ c, Event.writeKeyFile c ∉ (get_key_or_generate caps cfg w).2) ∧
     (∀ pe ks, Event.genRsaKey pe ks ∉ (get_key_or_generate caps cfg w).2) ∧
     (∀ d r s, Event.gpgEncryptData d r s ∉ (get_key_or_generate caps cfg w).2)) ∨
    ((∃ pe ks, Event.genRsaKey pe ks ∈ (get_key_or_generate caps cfg w).2) ∧
     (∃ d r s, Event.gpgEncryptData d r s ∈ (get_key_or_generate caps cfg w).2) ∧
     (∃ c, Event.writeKeyFile c ∈ (get_key_or_generate caps cfg w).2) ∧
     (∀ c, Event.readKeyFile c ∉ (get_key_or_generate caps cfg w).2) ∧
     (∀ c, Event.gpgDecryptFile c ∉ (get_key_or_generate caps cfg w).2)) := by
  cases hw : w.keyFile with
  | some contents =>
    left
    cases hpem : caps.load_pem_private_key (caps.gpgDecrypt contents).text with
    | ok key => simp [get_key_or_generate, hw, hpem]
    | error msg => simp [get_key_or_generate, hw, hpem]
  | none =>
    right
    simp [get_key_or_generate, encrypt, hw, hfp, hem]

/-- Witness for key_resolution_exclusive_effects at a world with no key
file: the generate effect set occurs. -/
theorem key_resolution_exclusive_effects_witness :
    ((∃ c, Event.readKeyFile c ∈ (get_key_or_generate capsA cfgA wGen).2) ∧
     (∃ c, Event.gpgDecryptFile c ∈ (get_key_or_generate capsA cfgA wGen).2) ∧
     (∀ c, Event.writeKeyFile c ∉ (get_key_or_generate capsA cfgA wGen).2) ∧
     (∀ pe ks, Event.genRsaKey pe ks ∉ (get_key_or_generate capsA cfgA wGen).2) ∧
     (∀ d r s, Event.gpgEncryptData d r s ∉ (get_key_or_generate capsA cfgA wGen).2)) ∨
    ((∃ pe ks, Event.genRsaKey pe ks ∈ (get_key_or_generate capsA cfgA wGen).2) ∧
     (∃ d r s, Event.gpgEncryptData d r s ∈ (get_key_or_generate capsA cfgA wGen).2) ∧
     (∃ c, Event.writeKeyFile c ∈ (get_key_or_generate capsA cfgA wGen).2) ∧
     (∀ c, Event.readKeyFile c ∉ (get_key_or_generate capsA cfgA wGen).2) ∧
     (∀ c, Event.gpgDecryptFile c ∉ (get_key_or_generate capsA cfgA wGen).2)) :=
  key_resolution_exclusive_effects capsA cfgA wGen "AAAA" "foo@example.com"
    (by decide) (by decide)

/-- C8: over a whole run, the sealing capability is used at most twice;
every unsigned seal targets the configured user fingerprint with the PEM
of the generated key and only when no key file existed, every signed seal
targets the configured server fingerprint with the PEM of a CSR, and every
key-file write stores sealed text, never cleartext key material. -/
theorem sealing_roles_at_most_twice (caps : Caps) (cfg : Config) (w : World) :
    ((run caps cfg w).2.filter isEncEvent).length ≤ 2 ∧
    (∀ d r s, Event.gpgEncryptData d r s ∈ (run caps cfg w).2 →
      (s = false ∧ w.keyFile = none ∧
        configGet cfg "fingerprint" = Except.ok r ∧ d = genKeyPem caps) ∨
      (s = true ∧ configGet cfg "server_fingerprint" = Except.ok r ∧
        ∃ csr, d = caps.csr_public_bytes csr PyEncoding.PEM)) ∧
    (∀ c, Event.writeKeyFile c ∈ (run caps cfg w).2 →
      w.keyFile = none ∧
      ∃ fp, configGet cfg "fingerprint" = Except.ok fp ∧
        c = (caps.gpgEncrypt (genKeyPem caps) fp false).text) := by
  refine ⟨?_, ?_, ?_⟩
  · rcases run_trace_cases caps cfg w with h | ⟨key, hk, h⟩ | ⟨key, csr, hk, hc, h⟩
    · rw [h]
      have h1 := gkg_enc_count caps cfg w
      omega
    · rw [h, List.filter_append, List.length_append]
      have h1 := gkg_enc_count caps cfg w
      have h2 := csr_enc_count cfg key
      omega
    · rw [h, List.filter_append, List.filter_append, List.length_append,
          List.length_append]
      have h1 := gkg_enc_count caps cfg w
      have h2 := csr_enc_count cfg key
      have h3 := send_enc_count caps cfg w csr
      omega
  · intro d r s hm
    rcases run_trace_cases caps cfg w with h | ⟨key, hk, h⟩ | ⟨key, csr, hk, hc, h⟩
    · rw [h] at hm
      exact Or.inl (gkg_enc_char caps cfg w d r s hm)
    · rw [h] at hm
      rcases List.mem_append.mp hm with hm | hm
      · exact Or.inl (gkg_enc_char caps cfg w d r s hm)
      · rcases csr_event_mem cfg key _ hm with ⟨subj, he⟩
        exact absurd he (by simp)
    · rw [h] at hm
      rcases List.mem_append.mp hm with hm | hm
      · rcases List.mem_append.mp hm with hm | hm
        · exact Or.inl (gkg_enc_char caps cfg w d r s hm)
        · rcases csr_event_mem cfg key _ hm with ⟨subj, he⟩
          exact absurd he (by simp)
      · rcases send_enc_char caps cfg w csr d r s hm with ⟨hs, hsfp, hd⟩
        exact Or.inr ⟨hs, hsfp, csr, hd⟩
  · intro c hm
    rcases run_trace_cases caps cfg w with h | ⟨key, hk, h⟩ | ⟨key, csr, hk, hc, h⟩
    · rw [h] at hm
      exact gkg_write_char caps cfg w c hm
    · rw [h] at hm
      rcases List.mem_append.mp hm with hm | hm
      · exact gkg_write_char caps cfg w c hm
      · rcases csr_event_mem cfg key _ hm with ⟨subj, he⟩
        exact absurd he (by simp)
    · rw [h] at hm
      rcases List.mem_append.mp hm with hm | hm
      · rcases List.mem_append.mp hm with hm | hm
        · exact gkg_write_char caps cfg w c hm
        · rcases csr_event_mem cfg key _ hm with ⟨subj, he⟩
          exact absurd he (by simp)
      · rcases send_event_mem caps cfg w csr _ hm with ⟨sfp, hsfp, he | he | he⟩
        · exact absurd he (by simp)
        · rcases he with ⟨u, p, he⟩
          exact absurd he (by simp)
        · rcases he with ⟨j, he⟩
          exact absurd he (by simp)

end Mtls
